import Mathlib

/-!
Shallow embedding of the "Reading Feed Filter" dashboard component.

The repository holds two variants of the same React component:
- `src/unnamed/part_000` (the richer variant: door status, image data,
  a 5-second polling interval with cleanup), and
- `src/src/components/Dashboard.tsx` (the simpler variant: no door/image
  fields, a single fetch on mount with no interval).

Times are modelled as epoch milliseconds (`ℤ`), matching JavaScript
`Date.getTime()`. Sensor numbers are modelled as `ℚ` (the claims never
exercise IEEE-754-specific behaviour). JavaScript's `x || d` defaulting is
embedded faithfully: on numbers, `0` (the only falsy number in the `ℚ`
model) falls through to the default; on the door-status enum both values
are non-empty strings, hence truthy, so only `undefined` falls through.
-/

namespace KiryuDashboard

/-- Window tags of the `timeRange` select: `'1hour' | '6hours' | '24hours' | '7days' | 'all'`. -/
inductive TimeRange where
  | oneHour
  | sixHours
  | twentyFourHours
  | sevenDays
  | all
deriving DecidableEq, Repr

/-- Door status enum `'open' | 'closed'` (`open` is a Lean keyword, so the first constructor is `opened`). -/
inductive DoorStatus where
  | opened
  | closed
deriving DecidableEq, Repr

/-- Reading shape of the `part_000` variant (`TemperatureHumidityData` there):
timestamp label, temperature, humidity, origin instant, door status, image reading. -/
structure TemperatureHumidityData where
  timestamp : String
  temperature : ℚ
  humidity : ℚ
  originalDate : ℤ
  doorStatus : DoorStatus
  imageReading : ℚ
deriving DecidableEq, Repr

/-- Reading shape of the `Dashboard.tsx` variant: no door or image fields. -/
structure TemperatureHumidityDataTsx where
  timestamp : String
  temperature : ℚ
  humidity : ℚ
  originalDate : ℤ
deriving DecidableEq, Repr

/-- Raw JSON record as the remote endpoint delivers it: `time` already parsed
to epoch milliseconds, and every sensor field possibly absent. -/
structure RawItem where
  time : ℤ
  temperature : Option ℚ
  humidity : Option ℚ
  doorStatus : Option DoorStatus
  imageReading : Option ℚ
deriving DecidableEq, Repr

/-- JavaScript `x || d` on a possibly-absent number: `undefined` and the falsy
number `0` both fall through to the default `d`. -/
def jsOrNum (x : Option ℚ) (d : ℚ) : ℚ :=
  match x with
  | none => d
  | some v => if v = 0 then d else v

/-- JavaScript `x || d` on a possibly-absent door status: both enum values are
truthy (non-empty strings), so only `undefined` falls through. -/
def jsOrDoor (x : Option DoorStatus) (d : DoorStatus) : DoorStatus :=
  x.getD d

/-- Timestamp label `"M/D H:MM"` built by the component from the origin
instant. The source formats via the environment's local time zone; the claims
never inspect the label, and this model renders it at UTC from the epoch
milliseconds (hours and minutes; month/day collapsed to the day index). -/
def formatLabel (t : ℤ) : String :=
  let minutes := (t / 60000) % 60
  let hours := (t / 3600000) % 24
  let days := t / 86400000
  toString days ++ " " ++ toString hours ++ ":" ++ toString minutes

/-- Normalization of one raw record in the `part_000` variant (`json.map` body
of `fetchData`): `temperature || 0`, `humidity || 0`, `doorStatus || 'closed'`,
`imageData || { reading: 0 }`. -/
def formatItem (item : RawItem) : TemperatureHumidityData :=
  { timestamp := formatLabel item.time
    temperature := jsOrNum item.temperature 0
    humidity := jsOrNum item.humidity 0
    originalDate := item.time
    doorStatus := jsOrDoor item.doorStatus DoorStatus.closed
    imageReading := jsOrNum item.imageReading 0 }

/-- Normalization of one raw record in the `Dashboard.tsx` variant: only
`temperature || 0` and `humidity || 0`; door and image fields are ignored. -/
def formatItemTsx (item : RawItem) : TemperatureHumidityDataTsx :=
  { timestamp := formatLabel item.time
    temperature := jsOrNum item.temperature 0
    humidity := jsOrNum item.humidity 0
    originalDate := item.time }

/-- Predicate of the `filter` callback in `filterData` (identical in both
variants): `diff = now - originalDate`, compared against the switch on the
window tag; the `default` branch (tag `all`) keeps everything. -/
def timePasses (timeRange : TimeRange) (diff : ℤ) : Bool :=
  match timeRange with
  | TimeRange.oneHour => decide (diff ≤ 60 * 60 * 1000)
  | TimeRange.sixHours => decide (diff ≤ 6 * 60 * 60 * 1000)
  | TimeRange.twentyFourHours => decide (diff ≤ 24 * 60 * 60 * 1000)
  | TimeRange.sevenDays => decide (diff ≤ 7 * 24 * 60 * 60 * 1000)
  | TimeRange.all => true

/-- Time-window filter (identical in both variants): keep the readings whose
age `now - originalDate` passes the window test, in source order. -/
def filterData (timeRange : TimeRange) (now : ℤ)
    (data : List TemperatureHumidityData) : List TemperatureHumidityData :=
  data.filter (fun item => timePasses timeRange (now - item.originalDate))

/-- JavaScript `Number.prototype.toFixed(1)` on the `ℚ` model: round the
magnitude to the nearest tenth (half up: `n = ⌊10|q| + 1/2⌋`, computed as
`(20·|num| + den).fdiv (2·den)`), print integer part, a dot, and one digit,
and restore the sign unless the result is zero. -/
def toFixed1 (q : ℚ) : String :=
  let m : ℤ := (q.num.natAbs : ℤ)
  let d : ℤ := (q.den : ℤ)
  let n : ℤ := Int.fdiv (20 * m + d) (2 * d)
  let s := toString (n / 10) ++ "." ++ toString (n % 10)
  if q.num < 0 ∧ n ≠ 0 then "-" ++ s else s

/-- Result shape of `getLatestReadings`: the two formatted summary strings. -/
structure LatestReadings where
  temp : String
  humid : String
deriving DecidableEq, Repr

/-- Latest-reading summary (identical in both variants): placeholders on the
empty sequence, otherwise the last element's temperature and humidity each
formatted with `toFixed(1)`. -/
def getLatestReadings (filteredData : List TemperatureHumidityData) : LatestReadings :=
  match filteredData.getLast? with
  | none => { temp := "--", humid := "--" }
  | some latest => { temp := toFixed1 latest.temperature, humid := toFixed1 latest.humidity }

/-- Window duration in milliseconds for the bounded tags, as the spec lists
them: 3600000, 21600000, 86400000, 604800000 (value at `all` is unused). -/
def windowMillis : TimeRange → ℤ
  | TimeRange.oneHour => 3600000
  | TimeRange.sixHours => 21600000
  | TimeRange.twentyFourHours => 86400000
  | TimeRange.sevenDays => 604800000
  | TimeRange.all => 0

/-- Window width with `all` as the widest (infinite) window, for comparing
window tags by the duration they denote. -/
def windowWidth : TimeRange → WithTop ℤ
  | TimeRange.oneHour => ((3600000 : ℤ) : WithTop ℤ)
  | TimeRange.sixHours => ((21600000 : ℤ) : WithTop ℤ)
  | TimeRange.twentyFourHours => ((86400000 : ℤ) : WithTop ℤ)
  | TimeRange.sevenDays => ((604800000 : ℤ) : WithTop ℤ)
  | TimeRange.all => ⊤

/-- Sample raw record of the spec's worked example: `{time: T0, temperature: 20,
humidity: 50}` with door and image fields absent. -/
def sampleItem (t : ℤ) : RawItem :=
  { time := t, temperature := some 20, humidity := some 50
    doorStatus := none, imageReading := none }

/-- Normalized form of `sampleItem`. -/
def sampleReading (t : ℤ) : TemperatureHumidityData :=
  formatItem (sampleItem t)

/-- Operations the mount-time effect body performs, transcribed from the
`useEffect(..., [])` bodies: an immediate `fetchData()` call and, in the
`part_000` variant only, `setInterval(fetchData, 5000)`. -/
inductive EffectOp where
  | callFetch
  | setIntervalFetch (ms : ℕ)
deriving DecidableEq, Repr

/-- Mount effect of one component variant: the list of operations its body
runs at mount, and whether its cleanup function clears the interval. -/
structure MountEffect where
  ops : List EffectOp
  clearsIntervalOnCleanup : Bool
deriving DecidableEq, Repr

/-- Mount effect of `part_000`: `fetchData(); const interval =
setInterval(fetchData, 5000); return () => clearInterval(interval);`. -/
def effectPart000 : MountEffect :=
  { ops := [EffectOp.callFetch, EffectOp.setIntervalFetch 5000]
    clearsIntervalOnCleanup := true }

/-- Mount effect of `Dashboard.tsx`: `fetchData();` only — no interval is
registered and no cleanup function is returned. -/
def effectTsx : MountEffect :=
  { ops := [EffectOp.callFetch], clearsIntervalOnCleanup := false }

/-- Period of the interval an effect registers, when it registers one. -/
def MountEffect.intervalMs (e : MountEffect) : Option ℕ :=
  e.ops.findSome? (fun op =>
    match op with
    | EffectOp.setIntervalFetch ms => some ms
    | EffectOp.callFetch => none)

/-- Timer semantics: whether a fetch fires at time `t` (milliseconds after
mount) given that the component unmounts at `unmountAt`. The mount-time call
fires at `t = 0`; a registered interval fires at every positive multiple of
its period, before the unmount when the cleanup clears the interval, and
forever (a leak) when it does not. -/
def MountEffect.fetchFiresAt (e : MountEffect) (unmountAt t : ℕ) : Bool :=
  (decide (t = 0) && decide (EffectOp.callFetch ∈ e.ops))
    || (match e.intervalMs with
        | none => false
        | some ms =>
            decide (0 < t) && decide (ms ∣ t)
              && (decide (t < unmountAt) || !e.clearsIntervalOnCleanup))

/-- Behaviour the spec claims for the mount effect: a fetch fires exactly at
mount and at every positive multiple of 5000 ms while the component is still
mounted, and never after unmount. -/
def pollsEveryFiveSeconds (e : MountEffect) : Prop :=
  ∀ unmountAt t : ℕ,
    e.fetchFiresAt unmountAt t = true ↔ (t = 0 ∨ (0 < t ∧ 5000 ∣ t ∧ t < unmountAt))

/-- Component state the fetch handlers touch: the reading sequence, the error
message, the loading flag, and (in `part_000`) the door-status card state.
The `Dashboard.tsx` variant has no door-status state; its handlers simply
never touch that field here. -/
structure ComponentState where
  data : List TemperatureHumidityData
  error : Option String
  loading : Bool
  doorStatusState : DoorStatus
deriving DecidableEq, Repr

/-- The static localized error message both variants set on a failed fetch. -/
def fetchErrorMessage : String := "データの取得に失敗しました"

/-- Catch branch of `fetchData` in `part_000`: `setError(...); setLoading(false);`
— `data` is not touched. -/
def onFetchErrorPart000 (s : ComponentState) : ComponentState :=
  { s with error := some fetchErrorMessage, loading := false }

/-- Catch branch of `fetchData` in `Dashboard.tsx`: textually identical to the
`part_000` one — `setError(...); setLoading(false);` and `data` is not touched. -/
def onFetchErrorTsx (s : ComponentState) : ComponentState :=
  { s with error := some fetchErrorMessage, loading := false }

/-- Concrete pre-failure state holding one previously fetched reading. -/
def statePrev : ComponentState :=
  { data := [sampleReading 0], error := none, loading := false
    doorStatusState := DoorStatus.closed }

/-- The claim's shape for the failure handlers: one variant preserves the
previously fetched data while the other clears it to the empty list. -/
def oneVariantClearsData : Prop :=
  ∀ s : ComponentState,
    ((onFetchErrorPart000 s).data = s.data ∧ (onFetchErrorTsx s).data = [])
      ∨ ((onFetchErrorPart000 s).data = [] ∧ (onFetchErrorTsx s).data = s.data)

/-- Success continuation of `fetchData` in `part_000`: map the raw records
through normalization, `setData`, update the door-status card from the last
record when the list is non-empty, `setLoading(false)`. The error state is not
reset on success, exactly as in the source. -/
def onFetchSuccessPart000 (items : List RawItem) (s : ComponentState) : ComponentState :=
  let formattedData := items.map formatItem
  { s with
    data := formattedData
    doorStatusState :=
      match formattedData.getLast? with
      | some latest => latest.doorStatus
      | none => s.doorStatusState
    loading := false }

/-- Runtime wrapper recording whether the component is still mounted when an
in-flight fetch resolves. -/
structure Runtime where
  mounted : Bool
  comp : ComponentState
deriving DecidableEq, Repr

/-- Resolution of an in-flight fetch in `part_000`: the source applies the
success continuation unconditionally — `fetchData` contains no
"is still mounted" check and no AbortController, so the state update is
applied whether or not the component is still mounted. -/
def resolveFetchPart000 (items : List RawItem) (rt : Runtime) : Runtime :=
  { rt with comp := onFetchSuccessPart000 items rt.comp }

/-- Concrete runtime state: the component has already been unmounted and its
last rendered state had no data. -/
def rtUnmounted : Runtime :=
  { mounted := false
    comp := { data := [], error := none, loading := true
              doorStatusState := DoorStatus.closed } }

/-- Helper: the switch predicate passes exactly when the age does not exceed
the window width, with `all` as the infinite window. -/
theorem timePasses_iff_windowWidth (rng : TimeRange) (d : ℤ) :
    timePasses rng d = true ↔ ((d : WithTop ℤ) ≤ windowWidth rng) := by
  cases rng <;>
    simp only [timePasses, windowWidth, decide_eq_true_eq, WithTop.coe_le_coe, le_top,
      iff_true] <;>
    norm_num

/-- Claim C1: for every source sequence, every bounded window tag and every
reference time, the filter returns exactly the elements whose age
`now - originInstant` is at most the tag's duration in milliseconds (3600000,
21600000, 86400000, 604800000), in source order (the result is a sublist of
the source). -/
theorem filterData_eq_filter_windowMillis (rng : TimeRange) (h : rng ≠ TimeRange.all)
    (now : ℤ) (data : List TemperatureHumidityData) :
    filterData rng now data
        = data.filter (fun item => decide (now - item.originalDate ≤ windowMillis rng))
      ∧ List.Sublist (filterData rng now data) data := by
  constructor
  · cases rng
    case all => exact absurd rfl h
    all_goals
      simp only [filterData, timePasses, windowMillis]
      norm_num
  · exact List.filter_sublist data

/-- Witness for C1 at the one-hour window on a singleton list. -/
theorem filterData_eq_filter_windowMillis_witness :
    filterData TimeRange.oneHour 0 [sampleReading 0]
        = [sampleReading 0].filter
            (fun item => decide ((0 : ℤ) - item.originalDate ≤ windowMillis TimeRange.oneHour))
      ∧ List.Sublist (filterData TimeRange.oneHour 0 [sampleReading 0]) [sampleReading 0] :=
  filterData_eq_filter_windowMillis TimeRange.oneHour (by decide) 0 [sampleReading 0]

/-- Claim C2: filtering is monotonic in the window — whenever tag `b` denotes
a duration no longer than tag `a` (with `all` the widest), every reading in
the result for `b` is also in the result for `a`. -/
theorem filterData_monotone_in_window (a b : TimeRange)
    (h : windowWidth b ≤ windowWidth a) (now : ℤ)
    (data : List TemperatureHumidityData) (x : TemperatureHumidityData)
    (hx : x ∈ filterData b now data) : x ∈ filterData a now data := by
  rw [filterData, List.mem_filter] at hx ⊢
  exact ⟨hx.1, (timePasses_iff_windowWidth a _).2
    (le_trans ((timePasses_iff_windowWidth b _).1 hx.2) h)⟩

/-- Witness for C2: a reading passing the one-hour window also passes the
six-hour window. -/
theorem filterData_monotone_in_window_witness :
    sampleReading 0 ∈ filterData TimeRange.sixHours 0 [sampleReading 0] :=
  filterData_monotone_in_window TimeRange.sixHours TimeRange.oneHour
    (WithTop.coe_le_coe.mpr (by norm_num)) 0 [sampleReading 0] (sampleReading 0) (by decide)

/-- Claim C3: filtering with the `all` tag is the identity on the source
sequence, for every reference time. -/
theorem filterData_all_eq_id (now : ℤ) (data : List TemperatureHumidityData) :
    filterData TimeRange.all now data = data := by
  simp [filterData, timePasses]

/-- Claim C4: on a non-empty filtered sequence the summary is the last
element's temperature and humidity, each formatted with `toFixed(1)`; and on
the spec's worked example (`{time: T0, temperature: 20, humidity: 50}`, window
one hour, `now = T0`) the filtered result is the full list and the summary is
`{temp: "20.0", humid: "50.0"}`. -/
theorem getLatestReadings_last_formatted (data : List TemperatureHumidityData)
    (t0 : ℤ) (h : data ≠ []) :
    getLatestReadings data
        = { temp := toFixed1 ((data.getLast h).temperature)
            humid := toFixed1 ((data.getLast h).humidity) }
      ∧ filterData TimeRange.oneHour t0 [sampleReading t0] = [sampleReading t0]
      ∧ getLatestReadings [sampleReading t0] = { temp := "20.0", humid := "50.0" } := by
  refine ⟨?_, ?_, ?_⟩
  · rw [getLatestReadings, List.getLast?_eq_getLast_of_ne_nil h]
  · simp only [filterData, List.filter, sampleReading, sampleItem, formatItem, timePasses]
    norm_num
  · have h1 : getLatestReadings [sampleReading t0]
        = { temp := toFixed1 20, humid := toFixed1 50 } := rfl
    have h2 : toFixed1 20 = "20.0" := by decide
    have h3 : toFixed1 50 = "50.0" := by decide
    rw [h1, h2, h3]

/-- Witness for C4 on the singleton list holding the sample reading at time 0. -/
theorem getLatestReadings_last_formatted_witness :
    getLatestReadings [sampleReading 0]
        = { temp := toFixed1 (([sampleReading 0].getLast (List.cons_ne_nil _ _)).temperature)
            humid := toFixed1 (([sampleReading 0].getLast (List.cons_ne_nil _ _)).humidity) } :=
  (getLatestReadings_last_formatted [sampleReading 0] 0 (List.cons_ne_nil _ _)).1

/-- Claim C5: the empty filtered sequence yields the placeholders
`{temp: "--", humid: "--"}`; and a source with one reading two hours old under
the one-hour window filters to the empty list, whose summary is the
placeholders. -/
theorem getLatestReadings_empty_placeholder (now : ℤ) :
    getLatestReadings [] = { temp := "--", humid := "--" }
      ∧ filterData TimeRange.oneHour now [sampleReading (now - 7200000)] = []
      ∧ getLatestReadings (filterData TimeRange.oneHour now [sampleReading (now - 7200000)])
          = { temp := "--", humid := "--" } := by
  have hfilter : filterData TimeRange.oneHour now [sampleReading (now - 7200000)] = [] := by
    simp only [filterData, List.filter, sampleReading, sampleItem, formatItem, timePasses]
    norm_num
  refine ⟨rfl, hfilter, ?_⟩
  rw [hfilter]
  exact rfl

/-- Helper: JavaScript `x || 0` on an optional number agrees with
"default 0 when absent, keep the value when present", because the only falsy
number that can be present is 0 itself. -/
theorem jsOrNum_zero_default (x : Option ℚ) : jsOrNum x 0 = x.getD 0 := by
  cases x with
  | none => rfl
  | some v =>
      by_cases hv : v = 0 <;> simp [jsOrNum, hv]

/-- Claim C6: normalization defaults a missing temperature or humidity to 0
and keeps the numeric value when present, and defaults a missing door status
to closed — in the `part_000` variant; the `Dashboard.tsx` variant's
normalization treats temperature and humidity the same way. -/
theorem formatItem_defaults (item : RawItem) :
    (formatItem item).temperature = item.temperature.getD 0
      ∧ (formatItem item).humidity = item.humidity.getD 0
      ∧ (formatItem item).doorStatus = item.doorStatus.getD DoorStatus.closed
      ∧ (formatItemTsx item).temperature = item.temperature.getD 0
      ∧ (formatItemTsx item).humidity = item.humidity.getD 0 :=
  ⟨jsOrNum_zero_default item.temperature, jsOrNum_zero_default item.humidity, rfl,
    jsOrNum_zero_default item.temperature, jsOrNum_zero_default item.humidity⟩

/-- Counterexample to claim C7: at 5000 ms after mount, with the unmount not
due until 10000 ms, the `Dashboard.tsx` variant fires no fetch even though the
claimed 5-second polling schedule fires one there. -/
theorem effectTsx_missing_interval_cex :
    effectTsx.fetchFiresAt 10000 5000 = false
      ∧ (5000 = 0 ∨ (0 < 5000 ∧ 5000 ∣ 5000 ∧ 5000 < 10000)) := by decide

/-- Claim C7 amended: the `part_000` variant fetches at mount and at every
positive multiple of 5000 ms before unmount, with nothing firing after the
cleanup clears the interval; the `Dashboard.tsx` variant fetches exactly once,
at mount, and registers no interval at all. -/
theorem effect_polling_per_variant :
    pollsEveryFiveSeconds effectPart000
      ∧ (∀ unmountAt t : ℕ, effectTsx.fetchFiresAt unmountAt t = true ↔ t = 0) := by
  constructor
  · intro unmountAt t
    simp [pollsEveryFiveSeconds, MountEffect.fetchFiresAt, effectPart000,
      MountEffect.intervalMs, List.findSome?, and_assoc]
  · intro unmountAt t
    simp [MountEffect.fetchFiresAt, effectTsx, MountEffect.intervalMs, List.findSome?]

/-- Counterexample to claim C8: starting from a state holding one previously
fetched reading, the failure handlers of both variants leave the data exactly
as it was — neither variant clears it to empty, so the claimed
"one keeps, the other clears" split is false. -/
theorem onFetchError_neither_clears_cex :
    ¬ (((onFetchErrorPart000 statePrev).data = statePrev.data
          ∧ (onFetchErrorTsx statePrev).data = [])
        ∨ ((onFetchErrorPart000 statePrev).data = []
          ∧ (onFetchErrorTsx statePrev).data = statePrev.data)) := by decide

/-- Claim C8 amended: on a failed fetch both variants set the static localized
error message and both leave the previously fetched reading sequence
unchanged; neither variant clears it. -/
theorem onFetchError_sets_message_keeps_data (s : ComponentState) :
    (onFetchErrorPart000 s).error = some fetchErrorMessage
      ∧ (onFetchErrorPart000 s).data = s.data
      ∧ (onFetchErrorTsx s).error = some fetchErrorMessage
      ∧ (onFetchErrorTsx s).data = s.data :=
  ⟨rfl, rfl, rfl, rfl⟩

/-- Claim C9 divergence: the code has no "is still mounted" guard and no
abortable request, so a fetch resolving after unmount still updates the
component state — here the unmounted runtime's data changes from empty to the
freshly normalized record, contradicting the claim that no state update is
applied after unmount. -/
theorem resolveFetch_after_unmount_updates_state :
    rtUnmounted.mounted = false
      ∧ (resolveFetchPart000 [sampleItem 0] rtUnmounted).comp.data
          ≠ rtUnmounted.comp.data := by decide

/-- Claim C10: under every bounded window tag, a reading dated strictly later
than the reference time (negative age) is always retained by the filter, since
the filter imposes no lower bound of zero on the age. -/
theorem filterData_keeps_future_readings (rng : TimeRange) (h : rng ≠ TimeRange.all)
    (now : ℤ) (data : List TemperatureHumidityData) (r : TemperatureHumidityData)
    (hr : r ∈ data) (hfut : now < r.originalDate) : r ∈ filterData rng now data := by
  rw [filterData, List.mem_filter]
  refine ⟨hr, ?_⟩
  cases rng <;> simp only [timePasses, decide_eq_true_eq] <;> omega

/-- Witness for C10: a reading dated 1 ms after the reference time passes the
one-hour window. -/
theorem filterData_keeps_future_readings_witness :
    sampleReading 1 ∈ filterData TimeRange.oneHour 0 [sampleReading 1] :=
  filterData_keeps_future_readings TimeRange.oneHour (by decide) 0
    [sampleReading 1] (sampleReading 1) (by decide) (by decide)

end KiryuDashboard
